import Mathlib

set_option linter.unusedVariables false

/-!
Verification of the Polymarket CLOB bridge (`src/services/clobBridge.py`),
a FastAPI gateway exposing an external trading client over HTTP.

The embedding models JSON values as `JVal` (numbers as rationals), the
external client's behavior as a record `ClientOps` of per-method outcomes
(each method either returns a value or raises with a message; outcomes are
taken as fixed per request, abstracting over call arguments), the lazily
constructed module-global `polymarket_client` as an explicit `ClientState`
threaded through each handler, and each FastAPI handler as a Lean function
from its inputs and the client state to the HTTP `Response` produced, the
resulting client state, and the trace of client calls made (construction
and capability-method invocations).

Exception semantics modelled: every handler body is wrapped in
`try ... except Exception as e: raise HTTPException(status_code=500, detail=str(e))`.
Since FastAPI's `HTTPException` is itself a subclass of `Exception`, an
`HTTPException` raised inside the `try` block is caught by that clause and
re-raised with status 500 and detail `str(e)`, where Starlette renders
`str` of an `HTTPException` as `"{status}: {detail}"` (written here with
explicit concatenation). FastAPI renders an escaping `HTTPException` as a
JSON response `{"detail": <detail>}` with its status code.

Not modelled: pydantic response-model coercion on `/balance` (no claim
depends on it), HTTP transport, and the exact message strings produced by
failed Python `float()` conversions (a faithful shape with representative
messages is used; no claim pins those strings).
-/

namespace ClobBridge

/-- JSON-like values exchanged with the external client and returned in
response bodies. Numbers are modelled as rationals. -/
inductive JVal where
  | vnull : JVal
  | vbool : Bool → JVal
  | vnum : ℚ → JVal
  | vstr : String → JVal
  | varr : List JVal → JVal
  | vobj : List (String × JVal) → JVal

/-- A raw record (Python dict) as returned by the external client. -/
abbrev RawRec := List (String × JVal)

/-- Python `d.get(k)`: the value at `k`, or `None` when absent. -/
def dictGet (d : RawRec) (k : String) : JVal :=
  match d.find? (fun p => p.1 == k) with
  | some p => p.2
  | none => JVal.vnull

/-- Python `d.get(k, dflt)`: the value at `k`, or `dflt` when absent. -/
def dictGetD (d : RawRec) (k : String) (dflt : JVal) : JVal :=
  match d.find? (fun p => p.1 == k) with
  | some p => p.2
  | none => dflt

/-- Field lookup on a `JVal` object (used only to state properties of
response bodies). -/
def objGet (v : JVal) (k : String) : JVal :=
  match v with
  | JVal.vobj fields => dictGet fields k
  | _ => JVal.vnull

/-- Numeric value of a list of decimal digit characters. -/
def digitsVal (cs : List Char) : ℕ :=
  cs.foldl (fun a c => a * 10 + (c.toNat - 48)) 0

/-- Python `float(s)` on a plain decimal string: optional sign, digits,
optional fractional part (models the decimal forms; exponent and
inf/nan spellings are not used by any claim). -/
def parseFloatStr (s : String) : Option ℚ :=
  let cs := s.trim.toList
  let signRest : ℚ × List Char :=
    match cs with
    | '+' :: r => (1, r)
    | '-' :: r => (-1, r)
    | r => (1, r)
  let intPart := signRest.2.takeWhile (fun c => c != '.')
  let dotPart := signRest.2.dropWhile (fun c => c != '.')
  match dotPart with
  | [] =>
      if intPart ≠ [] ∧ intPart.all Char.isDigit then
        some (signRest.1 * digitsVal intPart)
      else none
  | '.' :: frac =>
      if intPart.all Char.isDigit ∧ frac.all Char.isDigit ∧
          (intPart ≠ [] ∨ frac ≠ []) then
        some (signRest.1 * ((digitsVal intPart : ℚ) +
          (digitsVal frac : ℚ) / (10 ^ frac.length : ℚ)))
      else none
  | _ => none

/-- Python `float(v)` on a JSON-like value: numbers pass through, booleans
coerce (Python bools are ints), numeric strings parse, everything else
raises (`None`, lists, dicts are not convertible). -/
def pyFloat : JVal → Except String ℚ
  | JVal.vnum q => Except.ok q
  | JVal.vbool b => Except.ok (if b then 1 else 0)
  | JVal.vstr s =>
      match parseFloatStr s with
      | some q => Except.ok q
      | none => Except.error ("could not convert string to float: " ++ s)
  | JVal.vnull =>
      Except.error "float() argument must be a string or a real number, not NoneType"
  | JVal.varr _ =>
      Except.error "float() argument must be a string or a real number, not list"
  | JVal.vobj _ =>
      Except.error "float() argument must be a string or a real number, not dict"

/-- Python exceptions that can surface in a handler: FastAPI
`HTTPException(status_code, detail)` or any other exception carrying its
`str(e)` message. -/
inductive PyErr where
  | httpExc : ℕ → String → PyErr
  | exc : String → PyErr

/-- Python `str(e)`. Starlette renders `HTTPException` as
`"{status_code}: {detail}"`; a generic exception renders as its message. -/
def pyStr : PyErr → String
  | PyErr.httpExc s d => toString s ++ ": " ++ d
  | PyErr.exc m => m

/-- An HTTP response: status code and JSON body. -/
structure Response where
  status : ℕ
  body : JVal

/-- Effect of the handler-wide `except Exception` clause: any exception `e`
raised inside the `try` block is re-raised as `HTTPException(500, str(e))`,
which FastAPI renders as status 500 with body `{"detail": str(e)}`. -/
def failWith (e : PyErr) : Response :=
  ⟨500, JVal.vobj [("detail", JVal.vstr (pyStr e))]⟩

/-- The external client calls a handler can make: construction
(`Polymarket()`) and the capability methods. -/
inductive Call where
  | construct
  | get_balance
  | get_address_for_private_key
  | get_orders
  | get_positions
  | place_market_order
  | place_limit_order
  | cancel_order
  | get_order_book
  deriving DecidableEq, BEq

/-- The module-global `polymarket_client`: `none` models Python `None`,
`some c` a constructed client instance (identified by a number so that
"same instance" is expressible). -/
abbrev ClientState := Option ℕ

/-- Outcomes of the external client's constructor and capability methods
for one request: each either returns a value or raises with a message. -/
structure ClientOps where
  construct : Except String ℕ
  get_balance : Except String JVal
  get_address_for_private_key : Except String JVal
  get_orders : Except String (List RawRec)
  get_positions : Except String (List RawRec)
  place_market_order : Except String RawRec
  place_limit_order : Except String RawRec
  cancel_order : Except String JVal
  get_order_book : Except String RawRec

/-- `get_client()`: returns the stored client if present; otherwise calls
`Polymarket()`, storing the instance on success (on failure the assignment
never executes, so the global stays `None`). Result: the returned client
or the raised error, the new global state, and the trace of
constructor invocations. -/
def get_client (ops : ClientOps) (st : ClientState) :
    Except String ℕ × ClientState × List Call :=
  match st with
  | some c => (Except.ok c, some c, [])
  | none =>
      match ops.construct with
      | Except.ok c => (Except.ok c, some c, [Call.construct])
      | Except.error m => (Except.error m, none, [Call.construct])

/-- The pydantic `OrderRequest` body: `price` is optional. -/
structure OrderRequest where
  token_id : String
  side : String
  amount : ℚ
  price : Option ℚ

/-- Result of running one handler: the HTTP response, the client state
afterwards, and the trace of external-client calls made. -/
abbrev HResult := Response × ClientState × List Call

/-- `GET /health`: returns a constant body; never touches the client. -/
def health_check (st : ClientState) : HResult :=
  (⟨200, JVal.vobj [("status", JVal.vstr "ok"),
    ("service", JVal.vstr "polymarket-clob-bridge")]⟩, st, [])

/-- `GET /balance`: `get_client()`, then `client.get_balance()` and
`client.get_address_for_private_key()`. -/
def get_balance (ops : ClientOps) (st : ClientState) : HResult :=
  let g := get_client ops st
  match g.1 with
  | Except.error m => (failWith (PyErr.exc m), g.2.1, g.2.2)
  | Except.ok _ =>
      match ops.get_balance with
      | Except.error m =>
          (failWith (PyErr.exc m), g.2.1, g.2.2 ++ [Call.get_balance])
      | Except.ok bal =>
          match ops.get_address_for_private_key with
          | Except.error m =>
              (failWith (PyErr.exc m), g.2.1,
                g.2.2 ++ [Call.get_balance, Call.get_address_for_private_key])
          | Except.ok addr =>
              (⟨200, JVal.vobj [("usdc_balance", bal), ("address", addr)]⟩,
                g.2.1,
                g.2.2 ++ [Call.get_balance, Call.get_address_for_private_key])

/-- Normalization of one raw order record, mirroring the dict literal in
`get_open_orders`: `float(order.get("price", 0))` is evaluated before
`float(order.get("size", 0))`, and either may raise. -/
def normalizeOrder (o : RawRec) : Except String JVal :=
  match pyFloat (dictGetD o "price" (JVal.vnum 0)),
        pyFloat (dictGetD o "size" (JVal.vnum 0)) with
  | Except.ok price, Except.ok size =>
      Except.ok (JVal.vobj [
        ("id", dictGet o "id"),
        ("market_id", dictGet o "market"),
        ("token_id", dictGet o "asset_id"),
        ("side", dictGet o "side"),
        ("price", JVal.vnum price),
        ("size", JVal.vnum size),
        ("status", dictGet o "status"),
        ("timestamp", dictGet o "created_at")])
  | Except.error m, _ => Except.error m
  | _, Except.error m => Except.error m

/-- `GET /orders`: `get_client()`, `client.get_orders()`, then the
normalization loop; the first failing `float()` aborts the request. -/
def get_open_orders (ops : ClientOps) (st : ClientState) : HResult :=
  let g := get_client ops st
  match g.1 with
  | Except.error m => (failWith (PyErr.exc m), g.2.1, g.2.2)
  | Except.ok _ =>
      match ops.get_orders with
      | Except.error m =>
          (failWith (PyErr.exc m), g.2.1, g.2.2 ++ [Call.get_orders])
      | Except.ok raws =>
          match raws.mapM normalizeOrder with
          | Except.error m =>
              (failWith (PyErr.exc m), g.2.1, g.2.2 ++ [Call.get_orders])
          | Except.ok lst =>
              (⟨200, JVal.vobj [("orders", JVal.varr lst),
                ("total", JVal.vnum (lst.length : ℚ))]⟩,
                g.2.1, g.2.2 ++ [Call.get_orders])

/-- Normalization of one raw position record, mirroring the dict literal in
`get_positions`: the five `float(pos.get(k, 0))` calls are evaluated in
source order and any of them may raise. -/
def normalizePosition (p : RawRec) : Except String JVal :=
  match pyFloat (dictGetD p "size" (JVal.vnum 0)) with
  | Except.error m => Except.error m
  | Except.ok size =>
  match pyFloat (dictGetD p "value" (JVal.vnum 0)) with
  | Except.error m => Except.error m
  | Except.ok value =>
  match pyFloat (dictGetD p "entry_price" (JVal.vnum 0)) with
  | Except.error m => Except.error m
  | Except.ok entry =>
  match pyFloat (dictGetD p "current_price" (JVal.vnum 0)) with
  | Except.error m => Except.error m
  | Except.ok current =>
  match pyFloat (dictGetD p "pnl" (JVal.vnum 0)) with
  | Except.error m => Except.error m
  | Except.ok pnl =>
      Except.ok (JVal.vobj [
        ("token_id", dictGet p "asset_id"),
        ("market", dictGet p "market"),
        ("side", dictGet p "side"),
        ("size", JVal.vnum size),
        ("value", JVal.vnum value),
        ("entry_price", JVal.vnum entry),
        ("current_price", JVal.vnum current),
        ("pnl", JVal.vnum pnl)])

/-- `GET /positions`: `get_client()`, `client.get_positions()`, then the
normalization loop. -/
def get_positions (ops : ClientOps) (st : ClientState) : HResult :=
  let g := get_client ops st
  match g.1 with
  | Except.error m => (failWith (PyErr.exc m), g.2.1, g.2.2)
  | Except.ok _ =>
      match ops.get_positions with
      | Except.error m =>
          (failWith (PyErr.exc m), g.2.1, g.2.2 ++ [Call.get_positions])
      | Except.ok raws =>
          match raws.mapM normalizePosition with
          | Except.error m =>
              (failWith (PyErr.exc m), g.2.1, g.2.2 ++ [Call.get_positions])
          | Except.ok lst =>
              (⟨200, JVal.vobj [("positions", JVal.varr lst),
                ("total", JVal.vnum (lst.length : ℚ))]⟩,
                g.2.1, g.2.2 ++ [Call.get_positions])

/-- `POST /order/market`: `get_client()`, `client.place_market_order(...)`,
then the response dict built with `result.get(...)` (default `None`). -/
def place_market_order (ops : ClientOps) (req : OrderRequest)
    (st : ClientState) : HResult :=
  let g := get_client ops st
  match g.1 with
  | Except.error m => (failWith (PyErr.exc m), g.2.1, g.2.2)
  | Except.ok _ =>
      match ops.place_market_order with
      | Except.error m =>
          (failWith (PyErr.exc m), g.2.1, g.2.2 ++ [Call.place_market_order])
      | Except.ok result =>
          (⟨200, JVal.vobj [
            ("success", JVal.vbool true),
            ("order_id", dictGet result "id"),
            ("status", dictGet result "status"),
            ("filled_amount", dictGet result "filled_amount")]⟩,
            g.2.1, g.2.2 ++ [Call.place_market_order])

/-- `POST /order/limit`: inside the `try` block, a missing `price` raises
`HTTPException(400, "Price is required for limit orders")` — which the
handler's own `except Exception` clause catches and re-raises as
`HTTPException(500, str(e))`; otherwise `get_client()` and
`client.place_limit_order(...)`. -/
def place_limit_order (ops : ClientOps) (req : OrderRequest)
    (st : ClientState) : HResult :=
  match req.price with
  | none =>
      (failWith (PyErr.httpExc 400 "Price is required for limit orders"),
        st, [])
  | some _ =>
      let g := get_client ops st
      match g.1 with
      | Except.error m => (failWith (PyErr.exc m), g.2.1, g.2.2)
      | Except.ok _ =>
          match ops.place_limit_order with
          | Except.error m =>
              (failWith (PyErr.exc m), g.2.1,
                g.2.2 ++ [Call.place_limit_order])
          | Except.ok result =>
              (⟨200, JVal.vobj [
                ("success", JVal.vbool true),
                ("order_id", dictGet result "id"),
                ("status", dictGet result "status")]⟩,
                g.2.1, g.2.2 ++ [Call.place_limit_order])

/-- `DELETE /order/{order_id}`: `get_client()`,
`client.cancel_order(order_id)`; the call's result is bound but never
inspected — the success body is returned unconditionally. -/
def cancel_order (ops : ClientOps) (order_id : String)
    (st : ClientState) : HResult :=
  let g := get_client ops st
  match g.1 with
  | Except.error m => (failWith (PyErr.exc m), g.2.1, g.2.2)
  | Except.ok _ =>
      match ops.cancel_order with
      | Except.error m =>
          (failWith (PyErr.exc m), g.2.1, g.2.2 ++ [Call.cancel_order])
      | Except.ok _ =>
          (⟨200, JVal.vobj [
            ("success", JVal.vbool true),
            ("order_id", JVal.vstr order_id),
            ("status", JVal.vstr "cancelled")]⟩,
            g.2.1, g.2.2 ++ [Call.cancel_order])

/-- `GET /markets/{token_id}/orderbook`: `get_client()`,
`client.get_order_book(token_id)`, then pass-through with defaults. -/
def get_orderbook (ops : ClientOps) (token_id : String)
    (st : ClientState) : HResult :=
  let g := get_client ops st
  match g.1 with
  | Except.error m => (failWith (PyErr.exc m), g.2.1, g.2.2)
  | Except.ok _ =>
      match ops.get_order_book with
      | Except.error m =>
          (failWith (PyErr.exc m), g.2.1, g.2.2 ++ [Call.get_order_book])
      | Except.ok ob =>
          (⟨200, JVal.vobj [
            ("token_id", JVal.vstr token_id),
            ("bids", dictGetD ob "bids" (JVal.varr [])),
            ("asks", dictGetD ob "asks" (JVal.varr [])),
            ("spread", dictGetD ob "spread" (JVal.vnum 0))]⟩,
            g.2.1, g.2.2 ++ [Call.get_order_book])

/-- Capability-method invocations in a trace: every client call other than
construction. -/
def capCalls (tr : List Call) : List Call :=
  tr.filter (fun c => c != Call.construct)

/-- Sequential runs of `get_client()`: one entry per call, each recording
the call's result and the constructor invocations it made, threading the
module-global state. -/
def gcRun : List ClientOps → ClientState → List (Except String ℕ × List Call)
  | [], _ => []
  | o :: os, st =>
      let r := get_client o st
      (r.1, r.2.2) :: gcRun os r.2.1

/-- Whether one `gcRun` entry performed a successful construction. -/
def successfulConstruction (e : Except String ℕ × List Call) : Bool :=
  (match e.1 with | Except.ok _ => true | Except.error _ => false) &&
    e.2.contains Call.construct

/-- A concrete client behavior where every operation succeeds. -/
def opsDemo : ClientOps :=
  { construct := Except.ok 7
    get_balance := Except.ok (JVal.vnum 125)
    get_address_for_private_key := Except.ok (JVal.vstr "0xabc")
    get_orders := Except.ok [[("id", JVal.vstr "O1"),
      ("price", JVal.vnum (1/2)), ("size", JVal.vnum 10)], []]
    get_positions := Except.ok [[("asset_id", JVal.vstr "T1")]]
    place_market_order := Except.ok [("id", JVal.vstr "O1"),
      ("status", JVal.vstr "FILLED"), ("filled_amount", JVal.vnum 10)]
    place_limit_order := Except.ok [("id", JVal.vstr "O2")]
    cancel_order := Except.ok (JVal.vobj [("success", JVal.vbool false)])
    get_order_book := Except.ok [("bids", JVal.varr [JVal.vnum 1])] }

/-- A concrete client behavior whose constructor raises. -/
def opsFailCtor : ClientOps :=
  { opsDemo with construct := Except.error "ctor boom" }

/-- A concrete client behavior returning one raw order whose `price` field is
present but not numeric (`None`). -/
def opsBadOrders : ClientOps :=
  { opsDemo with
    get_orders := Except.ok [[("id", JVal.vstr "O1"), ("price", JVal.vnull)]] }

/-- A concrete client behavior whose market-order result omits
`filled_amount`. -/
def opsNoFill : ClientOps :=
  { opsDemo with
    place_market_order := Except.ok [("id", JVal.vstr "O1"),
      ("status", JVal.vstr "FILLED")] }

/-- A demo request body with `price` supplied. -/
def reqWithPrice : OrderRequest := ⟨"T1", "BUY", 10, some (1/2)⟩

/-- Index lookup into a list yields a member. -/
theorem mem_of_lookup : ∀ (l : List (Except String ℕ × List Call)) (i : ℕ) a,
    l[i]? = some a → a ∈ l
  | [], _, _, h => by simp at h
  | b :: l, 0, a, h => by
      simp only [List.getElem?_cons_zero, Option.some.injEq] at h
      exact h ▸ List.mem_cons_self b l
  | b :: l, i + 1, a, h => by
      simp only [List.getElem?_cons_succ] at h
      exact List.mem_cons_of_mem b (mem_of_lookup l i a h)

/-- A `get_client` call never performs a capability-method invocation. -/
theorem capCalls_get_client (ops : ClientOps) (st : ClientState) :
    capCalls (get_client ops st).2.2 = [] := by
  cases st with
  | none => cases hco : ops.construct <;> simp only [get_client, hco] <;> rfl
  | some c => rfl

/-- C9: `GET /health` returns `{status:"ok", service:"polymarket-clob-bridge"}`
in every client-handle state, leaves the handle untouched, and performs no
external-client call (not even construction). -/
theorem health_check_constant (st : ClientState) :
    health_check st =
      (⟨200, JVal.vobj [("status", JVal.vstr "ok"),
        ("service", JVal.vstr "polymarket-clob-bridge")]⟩, st, []) := rfl

/-- C1 (behavior of the code at the failing input): a `POST /order/limit`
request omitting `price` returns status 500 — not 400 — with detail
`"400: Price is required for limit orders"`, because the handler's blanket
`except Exception` clause catches the `HTTPException(400, ...)` raised inside
its own `try` block and re-raises it as `HTTPException(500, str(e))`. The
external client is indeed never invoked (the call trace is empty), for every
client behavior and every client-handle state. -/
theorem limit_order_missing_price_returns_500 (ops : ClientOps)
    (st : ClientState) :
    place_limit_order ops ⟨"T1", "BUY", 10, none⟩ st =
      (⟨500, JVal.vobj [("detail",
        JVal.vstr "400: Price is required for limit orders")]⟩, st, []) := rfl

/-- C4: whenever `get_client()` succeeds and the client's `cancel_order` call
returns without raising — whatever value it returns, including a failure
indication — `DELETE /order/{id}` responds 200 with exactly
`{success: true, order_id: id, status: "cancelled"}`. -/
theorem cancel_order_unconditional_success (ops : ClientOps)
    (st : ClientState) (c : ℕ) (order_id : String) (v : JVal)
    (hgc : (get_client ops st).1 = Except.ok c)
    (hcancel : ops.cancel_order = Except.ok v) :
    (cancel_order ops order_id st).1 =
      ⟨200, JVal.vobj [("success", JVal.vbool true),
        ("order_id", JVal.vstr order_id),
        ("status", JVal.vstr "cancelled")]⟩ := by
  simp only [cancel_order, hgc, hcancel]

/-- Witness for C4 at a concrete input: the underlying call reports
`{success: false}` and the endpoint still answers `"cancelled"`. -/
theorem cancel_order_unconditional_success_w :
    (get_client opsDemo (some 3)).1 = Except.ok 3 ∧
    opsDemo.cancel_order = Except.ok (JVal.vobj [("success", JVal.vbool false)]) ∧
    (cancel_order opsDemo "O9" (some 3)).1 =
      ⟨200, JVal.vobj [("success", JVal.vbool true),
        ("order_id", JVal.vstr "O9"),
        ("status", JVal.vstr "cancelled")]⟩ :=
  ⟨rfl, rfl, cancel_order_unconditional_success opsDemo (some 3) 3 "O9"
    (JVal.vobj [("success", JVal.vbool false)]) rfl rfl⟩

/-- C2 counterexample: a raw order whose `price` field is present but not
numeric (`None`) makes the whole `GET /orders` request fail with status 500
(Python `float(None)` raises), contradicting "the request never fails because
of such a field" and "the field becomes 0 when non-numeric". -/
theorem nonnumeric_price_fails_request :
    get_open_orders opsBadOrders (some 3) =
      (⟨500, JVal.vobj [("detail", JVal.vstr
        "float() argument must be a string or a real number, not NoneType")]⟩,
        some 3, [Call.get_orders]) := rfl

/-- A missing key makes `d.get(k, dflt)` yield the default. -/
theorem dictGetD_of_missing (d : RawRec) (k : String) (dflt : JVal)
    (h : d.find? (fun q => q.1 == k) = none) : dictGetD d k dflt = dflt := by
  simp only [dictGetD, h]

/-- C2 (amended), stated per field: for each numeric key of the raw record
(`price`, `size` for orders; `size`, `value`, `entry_price`,
`current_price`, `pnl` for positions), if that key is MISSING — whatever the
other fields hold, so long as their own lookups convert — normalization
succeeds and the normalized field equals 0, never null or absent; a missing
field never makes the request fail, and the defaulting rule is identical
across Order and Position. (A field that is present but non-numeric instead
makes `float()` raise, failing the whole request.) -/
theorem missing_numeric_fields_default_to_zero :
    (∀ (o : RawRec) (s : ℚ),
      o.find? (fun q => q.1 == "price") = none →
      pyFloat (dictGetD o "size" (JVal.vnum 0)) = Except.ok s →
      normalizeOrder o = Except.ok (JVal.vobj [
        ("id", dictGet o "id"), ("market_id", dictGet o "market"),
        ("token_id", dictGet o "asset_id"), ("side", dictGet o "side"),
        ("price", JVal.vnum 0), ("size", JVal.vnum s),
        ("status", dictGet o "status"),
        ("timestamp", dictGet o "created_at")])) ∧
    (∀ (o : RawRec) (pr : ℚ),
      o.find? (fun q => q.1 == "size") = none →
      pyFloat (dictGetD o "price" (JVal.vnum 0)) = Except.ok pr →
      normalizeOrder o = Except.ok (JVal.vobj [
        ("id", dictGet o "id"), ("market_id", dictGet o "market"),
        ("token_id", dictGet o "asset_id"), ("side", dictGet o "side"),
        ("price", JVal.vnum pr), ("size", JVal.vnum 0),
        ("status", dictGet o "status"),
        ("timestamp", dictGet o "created_at")])) ∧
    (∀ (p : RawRec) (v2 e2 cu pn : ℚ),
      p.find? (fun q => q.1 == "size") = none →
      pyFloat (dictGetD p "value" (JVal.vnum 0)) = Except.ok v2 →
      pyFloat (dictGetD p "entry_price" (JVal.vnum 0)) = Except.ok e2 →
      pyFloat (dictGetD p "current_price" (JVal.vnum 0)) = Except.ok cu →
      pyFloat (dictGetD p "pnl" (JVal.vnum 0)) = Except.ok pn →
      normalizePosition p = Except.ok (JVal.vobj [
        ("token_id", dictGet p "asset_id"), ("market", dictGet p "market"),
        ("side", dictGet p "side"), ("size", JVal.vnum 0),
        ("value", JVal.vnum v2), ("entry_price", JVal.vnum e2),
        ("current_price", JVal.vnum cu), ("pnl", JVal.vnum pn)])) ∧
    (∀ (p : RawRec) (s2 e2 cu pn : ℚ),
      p.find? (fun q => q.1 == "value") = none →
      pyFloat (dictGetD p "size" (JVal.vnum 0)) = Except.ok s2 →
      pyFloat (dictGetD p "entry_price" (JVal.vnum 0)) = Except.ok e2 →
      pyFloat (dictGetD p "current_price" (JVal.vnum 0)) = Except.ok cu →
      pyFloat (dictGetD p "pnl" (JVal.vnum 0)) = Except.ok pn →
      normalizePosition p = Except.ok (JVal.vobj [
        ("token_id", dictGet p "asset_id"), ("market", dictGet p "market"),
        ("side", dictGet p "side"), ("size", JVal.vnum s2),
        ("value", JVal.vnum 0), ("entry_price", JVal.vnum e2),
        ("current_price", JVal.vnum cu), ("pnl", JVal.vnum pn)])) ∧
    (∀ (p : RawRec) (s2 v2 cu pn : ℚ),
      p.find? (fun q => q.1 == "entry_price") = none →
      pyFloat (dictGetD p "size" (JVal.vnum 0)) = Except.ok s2 →
      pyFloat (dictGetD p "value" (JVal.vnum 0)) = Except.ok v2 →
      pyFloat (dictGetD p "current_price" (JVal.vnum 0)) = Except.ok cu →
      pyFloat (dictGetD p "pnl" (JVal.vnum 0)) = Except.ok pn →
      normalizePosition p = Except.ok (JVal.vobj [
        ("token_id", dictGet p "asset_id"), ("market", dictGet p "market"),
        ("side", dictGet p "side"), ("size", JVal.vnum s2),
        ("value", JVal.vnum v2), ("entry_price", JVal.vnum 0),
        ("current_price", JVal.vnum cu), ("pnl", JVal.vnum pn)])) ∧
    (∀ (p : RawRec) (s2 v2 e2 pn : ℚ),
      p.find? (fun q => q.1 == "current_price") = none →
      pyFloat (dictGetD p "size" (JVal.vnum 0)) = Except.ok s2 →
      pyFloat (dictGetD p "value" (JVal.vnum 0)) = Except.ok v2 →
      pyFloat (dictGetD p "entry_price" (JVal.vnum 0)) = Except.ok e2 →
      pyFloat (dictGetD p "pnl" (JVal.vnum 0)) = Except.ok pn →
      normalizePosition p = Except.ok (JVal.vobj [
        ("token_id", dictGet p "asset_id"), ("market", dictGet p "market"),
        ("side", dictGet p "side"), ("size", JVal.vnum s2),
        ("value", JVal.vnum v2), ("entry_price", JVal.vnum e2),
        ("current_price", JVal.vnum 0), ("pnl", JVal.vnum pn)])) ∧
    (∀ (p : RawRec) (s2 v2 e2 cu : ℚ),
      p.find? (fun q => q.1 == "pnl") = none →
      pyFloat (dictGetD p "size" (JVal.vnum 0)) = Except.ok s2 →
      pyFloat (dictGetD p "value" (JVal.vnum 0)) = Except.ok v2 →
      pyFloat (dictGetD p "entry_price" (JVal.vnum 0)) = Except.ok e2 →
      pyFloat (dictGetD p "current_price" (JVal.vnum 0)) = Except.ok cu →
      normalizePosition p = Except.ok (JVal.vobj [
        ("token_id", dictGet p "asset_id"), ("market", dictGet p "market"),
        ("side", dictGet p "side"), ("size", JVal.vnum s2),
        ("value", JVal.vnum v2), ("entry_price", JVal.vnum e2),
        ("current_price", JVal.vnum cu), ("pnl", JVal.vnum 0)])) := by
  refine ⟨?_, ?_, ?_, ?_, ?_, ?_, ?_⟩
  · intro o s hm hs
    have hp : pyFloat (dictGetD o "price" (JVal.vnum 0)) = Except.ok 0 := by
      rw [dictGetD_of_missing o "price" (JVal.vnum 0) hm]
      rfl
    simp only [normalizeOrder, hp, hs]
  · intro o pr hm hp
    have hs : pyFloat (dictGetD o "size" (JVal.vnum 0)) = Except.ok 0 := by
      rw [dictGetD_of_missing o "size" (JVal.vnum 0) hm]
      rfl
    simp only [normalizeOrder, hp, hs]
  · intro p v2 e2 cu pn hm h2 h3 h4 h5
    have h1 : pyFloat (dictGetD p "size" (JVal.vnum 0)) = Except.ok 0 := by
      rw [dictGetD_of_missing p "size" (JVal.vnum 0) hm]
      rfl
    simp only [normalizePosition, h1, h2, h3, h4, h5]
  · intro p s2 e2 cu pn hm h1 h3 h4 h5
    have h2 : pyFloat (dictGetD p "value" (JVal.vnum 0)) = Except.ok 0 := by
      rw [dictGetD_of_missing p "value" (JVal.vnum 0) hm]
      rfl
    simp only [normalizePosition, h1, h2, h3, h4, h5]
  · intro p s2 v2 cu pn hm h1 h2 h4 h5
    have h3 : pyFloat (dictGetD p "entry_price" (JVal.vnum 0)) =
        Except.ok 0 := by
      rw [dictGetD_of_missing p "entry_price" (JVal.vnum 0) hm]
      rfl
    simp only [normalizePosition, h1, h2, h3, h4, h5]
  · intro p s2 v2 e2 pn hm h1 h2 h3 h5
    have h4 : pyFloat (dictGetD p "current_price" (JVal.vnum 0)) =
        Except.ok 0 := by
      rw [dictGetD_of_missing p "current_price" (JVal.vnum 0) hm]
      rfl
    simp only [normalizePosition, h1, h2, h3, h4, h5]
  · intro p s2 v2 e2 cu hm h1 h2 h3 h4
    have h5 : pyFloat (dictGetD p "pnl" (JVal.vnum 0)) = Except.ok 0 := by
      rw [dictGetD_of_missing p "pnl" (JVal.vnum 0) hm]
      rfl
    simp only [normalizePosition, h1, h2, h3, h4, h5]

/-- Witness for C2 at concrete records: an order record whose `price` is
missing while `size` is present (and numeric) normalizes with `price` 0 and
the given `size`; a position record missing only `pnl` normalizes with
`pnl` 0 and the other four fields forwarded. -/
theorem missing_numeric_fields_default_to_zero_w :
    (([("id", JVal.vstr "O1"), ("size", JVal.vnum 10)] : RawRec).find?
      (fun q => q.1 == "price") = none) ∧
    normalizeOrder [("id", JVal.vstr "O1"), ("size", JVal.vnum 10)] =
      Except.ok (JVal.vobj [
        ("id", JVal.vstr "O1"), ("market_id", JVal.vnull),
        ("token_id", JVal.vnull), ("side", JVal.vnull),
        ("price", JVal.vnum 0), ("size", JVal.vnum 10),
        ("status", JVal.vnull), ("timestamp", JVal.vnull)]) ∧
    normalizePosition [("size", JVal.vnum 1), ("value", JVal.vnum 2),
        ("entry_price", JVal.vnum 3), ("current_price", JVal.vnum 4)] =
      Except.ok (JVal.vobj [
        ("token_id", JVal.vnull), ("market", JVal.vnull),
        ("side", JVal.vnull), ("size", JVal.vnum 1),
        ("value", JVal.vnum 2), ("entry_price", JVal.vnum 3),
        ("current_price", JVal.vnum 4), ("pnl", JVal.vnum 0)]) :=
  ⟨rfl,
    missing_numeric_fields_default_to_zero.1
      [("id", JVal.vstr "O1"), ("size", JVal.vnum 10)] 10 rfl rfl,
    missing_numeric_fields_default_to_zero.2.2.2.2.2.2
      [("size", JVal.vnum 1), ("value", JVal.vnum 2),
        ("entry_price", JVal.vnum 3), ("current_price", JVal.vnum 4)]
      1 2 3 4 rfl rfl rfl rfl rfl⟩

/-- C5: whenever the client is constructed and the capability method invoked
by a dispatch raises with message `m` — whatever kind of failure `m`
describes — the endpoint responds with status 500 and body exactly
`{detail: m}`; likewise when the client's constructor raises with message
`m` while the dispatch fetches the client. Every endpoint and every failure
kind collapse to this one status and shape, the message forwarded
verbatim. -/
theorem client_failure_maps_to_500 (m : String) :
    (∀ ops, ops.construct = Except.error m →
      (get_balance ops none).1 =
        ⟨500, JVal.vobj [("detail", JVal.vstr m)]⟩) ∧
    (∀ ops, ops.construct = Except.error m →
      (get_open_orders ops none).1 =
        ⟨500, JVal.vobj [("detail", JVal.vstr m)]⟩) ∧
    (∀ ops, ops.construct = Except.error m →
      (get_positions ops none).1 =
        ⟨500, JVal.vobj [("detail", JVal.vstr m)]⟩) ∧
    (∀ ops req, ops.construct = Except.error m →
      (place_market_order ops req none).1 =
        ⟨500, JVal.vobj [("detail", JVal.vstr m)]⟩) ∧
    (∀ ops req pr, req.price = some pr → ops.construct = Except.error m →
      (place_limit_order ops req none).1 =
        ⟨500, JVal.vobj [("detail", JVal.vstr m)]⟩) ∧
    (∀ ops oid, ops.construct = Except.error m →
      (cancel_order ops oid none).1 =
        ⟨500, JVal.vobj [("detail", JVal.vstr m)]⟩) ∧
    (∀ ops tid, ops.construct = Except.error m →
      (get_orderbook ops tid none).1 =
        ⟨500, JVal.vobj [("detail", JVal.vstr m)]⟩) ∧
    (∀ ops c, ops.get_balance = Except.error m →
      (get_balance ops (some c)).1 =
        ⟨500, JVal.vobj [("detail", JVal.vstr m)]⟩) ∧
    (∀ ops c bal, ops.get_balance = Except.ok bal →
      ops.get_address_for_private_key = Except.error m →
      (get_balance ops (some c)).1 =
        ⟨500, JVal.vobj [("detail", JVal.vstr m)]⟩) ∧
    (∀ ops c, ops.get_orders = Except.error m →
      (get_open_orders ops (some c)).1 =
        ⟨500, JVal.vobj [("detail", JVal.vstr m)]⟩) ∧
    (∀ ops c, ops.get_positions = Except.error m →
      (get_positions ops (some c)).1 =
        ⟨500, JVal.vobj [("detail", JVal.vstr m)]⟩) ∧
    (∀ ops c req, ops.place_market_order = Except.error m →
      (place_market_order ops req (some c)).1 =
        ⟨500, JVal.vobj [("detail", JVal.vstr m)]⟩) ∧
    (∀ ops c req pr, req.price = some pr →
      ops.place_limit_order = Except.error m →
      (place_limit_order ops req (some c)).1 =
        ⟨500, JVal.vobj [("detail", JVal.vstr m)]⟩) ∧
    (∀ ops c oid, ops.cancel_order = Except.error m →
      (cancel_order ops oid (some c)).1 =
        ⟨500, JVal.vobj [("detail", JVal.vstr m)]⟩) ∧
    (∀ ops c tid, ops.get_order_book = Except.error m →
      (get_orderbook ops tid (some c)).1 =
        ⟨500, JVal.vobj [("detail", JVal.vstr m)]⟩) := by
  refine ⟨?_, ?_, ?_, ?_, ?_, ?_, ?_, ?_, ?_, ?_, ?_, ?_, ?_, ?_, ?_⟩
  · intro ops h
    simp only [get_balance, get_client, h]
    rfl
  · intro ops h
    simp only [get_open_orders, get_client, h]
    rfl
  · intro ops h
    simp only [get_positions, get_client, h]
    rfl
  · intro ops req h
    simp only [place_market_order, get_client, h]
    rfl
  · intro ops req pr hp h
    simp only [place_limit_order, hp, get_client, h]
    rfl
  · intro ops oid h
    simp only [cancel_order, get_client, h]
    rfl
  · intro ops tid h
    simp only [get_orderbook, get_client, h]
    rfl
  · intro ops c h
    simp only [get_balance, get_client, h]
    rfl
  · intro ops c bal h1 h2
    simp only [get_balance, get_client, h1, h2]
    rfl
  · intro ops c h
    simp only [get_open_orders, get_client, h]
    rfl
  · intro ops c h
    simp only [get_positions, get_client, h]
    rfl
  · intro ops c req h
    simp only [place_market_order, get_client, h]
    rfl
  · intro ops c req pr hp h
    simp only [place_limit_order, hp, get_client, h]
    rfl
  · intro ops c oid h
    simp only [cancel_order, get_client, h]
    rfl
  · intro ops c tid h
    simp only [get_orderbook, get_client, h]
    rfl

/-- Witness for C5 at concrete inputs: a method raising "boom" on two of
the endpoints, and a constructor raising "ctor boom" on a third. -/
theorem client_failure_maps_to_500_w :
    ({ opsDemo with cancel_order := Except.error "boom" } :
        ClientOps).cancel_order = Except.error "boom" ∧
    (cancel_order { opsDemo with cancel_order := Except.error "boom" }
        "O1" (some 3)).1 = ⟨500, JVal.vobj [("detail", JVal.vstr "boom")]⟩ ∧
    (get_open_orders { opsDemo with get_orders := Except.error "boom" }
        (some 3)).1 = ⟨500, JVal.vobj [("detail", JVal.vstr "boom")]⟩ ∧
    (cancel_order opsFailCtor "O1" none).1 =
      ⟨500, JVal.vobj [("detail", JVal.vstr "ctor boom")]⟩ :=
  ⟨rfl,
    (client_failure_maps_to_500
        "boom").2.2.2.2.2.2.2.2.2.2.2.2.2.1
      { opsDemo with cancel_order := Except.error "boom" } 3 "O1" rfl,
    (client_failure_maps_to_500 "boom").2.2.2.2.2.2.2.2.2.1
      { opsDemo with get_orders := Except.error "boom" } 3 rfl,
    (client_failure_maps_to_500 "ctor boom").2.2.2.2.2.1
      opsFailCtor "O1" rfl⟩

/-- C6: when `Polymarket()` raises with message `m` during a request, that
request (whichever endpoint triggered construction) answers 500 with detail
exactly `m`, the module-global handle stays `None` (no poisoning), a
subsequent `get_client()` re-invokes the constructor, and when that later
construction succeeds the request proceeds normally. -/
theorem construction_failure_no_poisoning (m : String) :
    (∀ ops, ops.construct = Except.error m →
      get_balance ops none =
        (⟨500, JVal.vobj [("detail", JVal.vstr m)]⟩, none, [Call.construct])) ∧
    (∀ ops, ops.construct = Except.error m →
      get_open_orders ops none =
        (⟨500, JVal.vobj [("detail", JVal.vstr m)]⟩, none, [Call.construct])) ∧
    (∀ ops, ops.construct = Except.error m →
      get_positions ops none =
        (⟨500, JVal.vobj [("detail", JVal.vstr m)]⟩, none, [Call.construct])) ∧
    (∀ ops req, ops.construct = Except.error m →
      place_market_order ops req none =
        (⟨500, JVal.vobj [("detail", JVal.vstr m)]⟩, none, [Call.construct])) ∧
    (∀ ops req pr, req.price = some pr → ops.construct = Except.error m →
      place_limit_order ops req none =
        (⟨500, JVal.vobj [("detail", JVal.vstr m)]⟩, none, [Call.construct])) ∧
    (∀ ops oid, ops.construct = Except.error m →
      cancel_order ops oid none =
        (⟨500, JVal.vobj [("detail", JVal.vstr m)]⟩, none, [Call.construct])) ∧
    (∀ ops tid, ops.construct = Except.error m →
      get_orderbook ops tid none =
        (⟨500, JVal.vobj [("detail", JVal.vstr m)]⟩, none, [Call.construct])) ∧
    (∀ ops c, ops.construct = Except.ok c →
      get_client ops none = (Except.ok c, some c, [Call.construct])) ∧
    (∀ ops c bal addr, ops.construct = Except.ok c →
      ops.get_balance = Except.ok bal →
      ops.get_address_for_private_key = Except.ok addr →
      get_balance ops none =
        (⟨200, JVal.vobj [("usdc_balance", bal), ("address", addr)]⟩, some c,
          [Call.construct, Call.get_balance,
            Call.get_address_for_private_key])) := by
  refine ⟨?_, ?_, ?_, ?_, ?_, ?_, ?_, ?_, ?_⟩
  · intro ops h
    simp only [get_balance, get_client, h]
    rfl
  · intro ops h
    simp only [get_open_orders, get_client, h]
    rfl
  · intro ops h
    simp only [get_positions, get_client, h]
    rfl
  · intro ops req h
    simp only [place_market_order, get_client, h]
    rfl
  · intro ops req pr hp h
    simp only [place_limit_order, hp, get_client, h]
    rfl
  · intro ops oid h
    simp only [cancel_order, get_client, h]
    rfl
  · intro ops tid h
    simp only [get_orderbook, get_client, h]
    rfl
  · intro ops c h
    simp only [get_client, h]
  · intro ops c bal addr h hb ha
    simp only [get_balance, get_client, h, hb, ha]
    rfl

/-- Witness for C6 at concrete inputs: a first request against a failing
constructor answers 500 and leaves the handle unset; the follow-up request
against a working constructor re-constructs and succeeds. -/
theorem construction_failure_no_poisoning_w :
    opsFailCtor.construct = Except.error "ctor boom" ∧
    get_balance opsFailCtor none =
      (⟨500, JVal.vobj [("detail", JVal.vstr "ctor boom")]⟩, none,
        [Call.construct]) ∧
    get_balance opsDemo none =
      (⟨200, JVal.vobj [("usdc_balance", JVal.vnum 125),
        ("address", JVal.vstr "0xabc")]⟩, some 7,
        [Call.construct, Call.get_balance,
          Call.get_address_for_private_key]) :=
  ⟨rfl,
    (construction_failure_no_poisoning "ctor boom").1 opsFailCtor rfl,
    (construction_failure_no_poisoning "ctor boom").2.2.2.2.2.2.2.2 opsDemo 7
      (JVal.vnum 125) (JVal.vstr "0xabc") rfl rfl rfl⟩

/-- C3 counterexample: a concrete successful `GET /balance` request performs
two capability-method invocations (`get_balance` and
`get_address_for_private_key`), not exactly one. -/
theorem balance_performs_two_capability_calls :
    (get_balance opsDemo (some 3)).1.status = 200 ∧
    capCalls (get_balance opsDemo (some 3)).2.2 =
      [Call.get_balance, Call.get_address_for_private_key] ∧
    (capCalls (get_balance opsDemo (some 3)).2.2).length ≠ 1 :=
  ⟨rfl, rfl, by decide⟩

/-- C3 (amended): whenever `get_client()` succeeds, each endpoint other than
`/health` and `/balance` performs exactly one capability-method invocation
per dispatch whose client method returns without raising; `/balance` performs
exactly two (`get_balance` then `get_address_for_private_key`). Construction
is not a capability call and is filtered out by `capCalls`. -/
theorem one_capability_call_per_dispatch :
    (∀ ops st c st2 tr0 bal addr,
      get_client ops st = (Except.ok c, st2, tr0) →
      ops.get_balance = Except.ok bal →
      ops.get_address_for_private_key = Except.ok addr →
      capCalls (get_balance ops st).2.2 =
        [Call.get_balance, Call.get_address_for_private_key]) ∧
    (∀ ops st c st2 tr0 raws,
      get_client ops st = (Except.ok c, st2, tr0) →
      ops.get_orders = Except.ok raws →
      capCalls (get_open_orders ops st).2.2 = [Call.get_orders]) ∧
    (∀ ops st c st2 tr0 raws,
      get_client ops st = (Except.ok c, st2, tr0) →
      ops.get_positions = Except.ok raws →
      capCalls (get_positions ops st).2.2 = [Call.get_positions]) ∧
    (∀ ops st c st2 tr0 req raw,
      get_client ops st = (Except.ok c, st2, tr0) →
      ops.place_market_order = Except.ok raw →
      capCalls (place_market_order ops req st).2.2 =
        [Call.place_market_order]) ∧
    (∀ ops st c st2 tr0 req pr raw, req.price = some pr →
      get_client ops st = (Except.ok c, st2, tr0) →
      ops.place_limit_order = Except.ok raw →
      capCalls (place_limit_order ops req st).2.2 =
        [Call.place_limit_order]) ∧
    (∀ ops st c st2 tr0 oid v,
      get_client ops st = (Except.ok c, st2, tr0) →
      ops.cancel_order = Except.ok v →
      capCalls (cancel_order ops oid st).2.2 = [Call.cancel_order]) ∧
    (∀ ops st c st2 tr0 tid ob,
      get_client ops st = (Except.ok c, st2, tr0) →
      ops.get_order_book = Except.ok ob →
      capCalls (get_orderbook ops tid st).2.2 = [Call.get_order_book]) := by
  have htr : ∀ (ops : ClientOps) (st : ClientState) c st2 tr0,
      get_client ops st = (Except.ok c, st2, tr0) → capCalls tr0 = [] := by
    intro ops st c st2 tr0 hgc
    have h2 := capCalls_get_client ops st
    rw [hgc] at h2
    exact h2
  refine ⟨?_, ?_, ?_, ?_, ?_, ?_, ?_⟩
  · intro ops st c st2 tr0 bal addr hgc h1 h2
    simp only [get_balance, hgc, h1, h2, capCalls, List.filter_append]
    have := htr ops st c st2 tr0 hgc
    simp only [capCalls] at this
    rw [this]
    rfl
  · intro ops st c st2 tr0 raws hgc h1
    cases hm : raws.mapM normalizeOrder with
    | ok lst =>
        simp only [get_open_orders, hgc, h1, hm, capCalls, List.filter_append]
        have := htr ops st c st2 tr0 hgc
        simp only [capCalls] at this
        rw [this]
        rfl
    | error m =>
        simp only [get_open_orders, hgc, h1, hm, capCalls, List.filter_append]
        have := htr ops st c st2 tr0 hgc
        simp only [capCalls] at this
        rw [this]
        rfl
  · intro ops st c st2 tr0 raws hgc h1
    cases hm : raws.mapM normalizePosition with
    | ok lst =>
        simp only [get_positions, hgc, h1, hm, capCalls, List.filter_append]
        have := htr ops st c st2 tr0 hgc
        simp only [capCalls] at this
        rw [this]
        rfl
    | error m =>
        simp only [get_positions, hgc, h1, hm, capCalls, List.filter_append]
        have := htr ops st c st2 tr0 hgc
        simp only [capCalls] at this
        rw [this]
        rfl
  · intro ops st c st2 tr0 req raw hgc h1
    simp only [place_market_order, hgc, h1, capCalls, List.filter_append]
    have := htr ops st c st2 tr0 hgc
    simp only [capCalls] at this
    rw [this]
    rfl
  · intro ops st c st2 tr0 req pr raw hp hgc h1
    simp only [place_limit_order, hp, hgc, h1, capCalls, List.filter_append]
    have := htr ops st c st2 tr0 hgc
    simp only [capCalls] at this
    rw [this]
    rfl
  · intro ops st c st2 tr0 oid v hgc h1
    simp only [cancel_order, hgc, h1, capCalls, List.filter_append]
    have := htr ops st c st2 tr0 hgc
    simp only [capCalls] at this
    rw [this]
    rfl
  · intro ops st c st2 tr0 tid ob hgc h1
    simp only [get_orderbook, hgc, h1, capCalls, List.filter_append]
    have := htr ops st c st2 tr0 hgc
    simp only [capCalls] at this
    rw [this]
    rfl

/-- Witness for C3 at concrete inputs: a first-use `DELETE /order/O1`
request (which also constructs the client) still counts exactly one
capability call, and `GET /orders` counts one. -/
theorem one_capability_call_per_dispatch_w :
    get_client opsDemo none = (Except.ok 7, some 7, [Call.construct]) ∧
    capCalls (cancel_order opsDemo "O1" none).2.2 = [Call.cancel_order] ∧
    capCalls (get_open_orders opsDemo (some 3)).2.2 = [Call.get_orders] :=
  ⟨rfl,
    one_capability_call_per_dispatch.2.2.2.2.2.1 opsDemo none 7 (some 7)
      [Call.construct] "O1" (JVal.vobj [("success", JVal.vbool false)])
      rfl rfl,
    one_capability_call_per_dispatch.2.1 opsDemo (some 3) 3 (some 3) []
      [[("id", JVal.vstr "O1"), ("price", JVal.vnum (1/2)),
        ("size", JVal.vnum 10)], []] rfl rfl⟩

/-- C8: whenever `get_client()` succeeds, the client's list call returns raw
records, and normalization succeeds, the success response of `/orders`
(resp. `/positions`) carries an `orders` (resp. `positions`) array and a
`total` field equal to that array's length — for any list, including the
empty one. -/
theorem total_equals_list_length :
    (∀ ops st c st2 tr0 raws lst,
      get_client ops st = (Except.ok c, st2, tr0) →
      ops.get_orders = Except.ok raws →
      raws.mapM normalizeOrder = Except.ok lst →
      (get_open_orders ops st).1.status = 200 ∧
      objGet (get_open_orders ops st).1.body "orders" = JVal.varr lst ∧
      objGet (get_open_orders ops st).1.body "total" =
        JVal.vnum (lst.length : ℚ)) ∧
    (∀ ops st c st2 tr0 raws lst,
      get_client ops st = (Except.ok c, st2, tr0) →
      ops.get_positions = Except.ok raws →
      raws.mapM normalizePosition = Except.ok lst →
      (get_positions ops st).1.status = 200 ∧
      objGet (get_positions ops st).1.body "positions" = JVal.varr lst ∧
      objGet (get_positions ops st).1.body "total" =
        JVal.vnum (lst.length : ℚ)) := by
  constructor
  · intro ops st c st2 tr0 raws lst hgc h1 hm
    simp only [get_open_orders, hgc, h1, hm]
    exact ⟨trivial, rfl, rfl⟩
  · intro ops st c st2 tr0 raws lst hgc h1 hm
    simp only [get_positions, hgc, h1, hm]
    exact ⟨trivial, rfl, rfl⟩

/-- Witness for C8 at concrete inputs: a two-record order list yields
`total` 2, and for the empty list `total` is 0. -/
theorem total_equals_list_length_w :
    opsDemo.get_orders = Except.ok [[("id", JVal.vstr "O1"),
      ("price", JVal.vnum (1/2)), ("size", JVal.vnum 10)], []] ∧
    objGet (get_open_orders opsDemo (some 3)).1.body "total" =
      JVal.vnum 2 ∧
    objGet (get_positions { opsDemo with get_positions := Except.ok [] }
      (some 3)).1.body "total" = JVal.vnum 0 :=
  ⟨rfl,
    (total_equals_list_length.1 opsDemo (some 3) 3 (some 3) []
      [[("id", JVal.vstr "O1"), ("price", JVal.vnum (1/2)),
        ("size", JVal.vnum 10)], []]
      [JVal.vobj [("id", JVal.vstr "O1"), ("market_id", JVal.vnull),
        ("token_id", JVal.vnull), ("side", JVal.vnull),
        ("price", JVal.vnum (1/2)), ("size", JVal.vnum 10),
        ("status", JVal.vnull), ("timestamp", JVal.vnull)],
       JVal.vobj [("id", JVal.vnull), ("market_id", JVal.vnull),
        ("token_id", JVal.vnull), ("side", JVal.vnull),
        ("price", JVal.vnum 0), ("size", JVal.vnum 0),
        ("status", JVal.vnull), ("timestamp", JVal.vnull)]]
      rfl rfl rfl).2.2,
    (total_equals_list_length.2 { opsDemo with get_positions := Except.ok [] }
      (some 3) 3 (some 3) [] [] [] rfl rfl rfl).2.2⟩

/-- C10: for any raw result returned without raising by `place_market_order`
or `place_limit_order`, the success response forwards the raw `id`, `status`
(and, for market orders, `filled_amount`) values untouched under the names
`order_id`, `status`, `filled_amount`, alongside `success: true`; and a raw
field that is absent is forwarded as null (`dictGet` yields `vnull`, never 0,
and the response key is still present). -/
theorem placement_response_passthrough :
    (∀ ops st c st2 tr0 req raw,
      get_client ops st = (Except.ok c, st2, tr0) →
      ops.place_market_order = Except.ok raw →
      (place_market_order ops req st).1 = ⟨200, JVal.vobj [
        ("success", JVal.vbool true),
        ("order_id", dictGet raw "id"),
        ("status", dictGet raw "status"),
        ("filled_amount", dictGet raw "filled_amount")]⟩) ∧
    (∀ ops st c st2 tr0 req pr raw, req.price = some pr →
      get_client ops st = (Except.ok c, st2, tr0) →
      ops.place_limit_order = Except.ok raw →
      (place_limit_order ops req st).1 = ⟨200, JVal.vobj [
        ("success", JVal.vbool true),
        ("order_id", dictGet raw "id"),
        ("status", dictGet raw "status")]⟩) ∧
    (∀ (raw : RawRec) k, raw.find? (fun q => q.1 == k) = none →
      dictGet raw k = JVal.vnull) := by
  refine ⟨?_, ?_, ?_⟩
  · intro ops st c st2 tr0 req raw hgc h1
    simp only [place_market_order, hgc, h1]
  · intro ops st c st2 tr0 req pr raw hp hgc h1
    simp only [place_limit_order, hp, hgc, h1]
  · intro raw k h
    simp only [dictGet, h]

/-- Witness for C10 at concrete inputs: a market result omitting
`filled_amount` is forwarded with `filled_amount: null` (the spec scenario
with `{id:"O1", status:"FILLED"}`). -/
theorem placement_response_passthrough_w :
    opsNoFill.place_market_order =
      Except.ok [("id", JVal.vstr "O1"), ("status", JVal.vstr "FILLED")] ∧
    (place_market_order opsNoFill reqWithPrice (some 3)).1 =
      ⟨200, JVal.vobj [
        ("success", JVal.vbool true),
        ("order_id", JVal.vstr "O1"),
        ("status", JVal.vstr "FILLED"),
        ("filled_amount", JVal.vnull)]⟩ ∧
    dictGet [("id", JVal.vstr "O1"), ("status", JVal.vstr "FILLED")]
      "filled_amount" = JVal.vnull :=
  ⟨rfl,
    placement_response_passthrough.1 opsNoFill (some 3) 3 (some 3) []
      reqWithPrice [("id", JVal.vstr "O1"), ("status", JVal.vstr "FILLED")]
      rfl rfl,
    placement_response_passthrough.2.2
      [("id", JVal.vstr "O1"), ("status", JVal.vstr "FILLED")]
      "filled_amount" rfl⟩

/-- Every entry of a `get_client` run that starts from an already-stored
client returns that instance and performs no constructor invocation. -/
theorem mem_gcRun_some : ∀ (opsl : List ClientOps) (c : ℕ)
    (e : Except String ℕ × List Call),
    e ∈ gcRun opsl (some c) → e = (Except.ok c, [])
  | [], _, _, he => by simp [gcRun] at he
  | o :: os, c, e, he => by
      simp only [gcRun, get_client, List.mem_cons] at he
      rcases he with h | h
      · exact h
      · exact mem_gcRun_some os c e h

/-- A run started from an already-stored client performs no successful
construction. -/
theorem countP_gcRun_some (opsl : List ClientOps) (c : ℕ) :
    (gcRun opsl (some c)).countP successfulConstruction = 0 := by
  induction opsl with
  | nil => rfl
  | cons o os ih =>
      simp only [gcRun, get_client, List.countP_cons, ih]
      rfl

/-- A run started from the unset handle performs at most one successful
construction. -/
theorem countP_gcRun_none (opsl : List ClientOps) :
    (gcRun opsl none).countP successfulConstruction ≤ 1 := by
  induction opsl with
  | nil => simp [gcRun]
  | cons o os ih =>
      cases hco : o.construct with
      | ok c =>
          simp only [gcRun, get_client, hco, List.countP_cons,
            countP_gcRun_some]
          exact Nat.le_refl 1
      | error m =>
          simp only [gcRun, get_client, hco, List.countP_cons]
          have hpred : successfulConstruction
              (Except.error m, [Call.construct]) = false := rfl
          rw [hpred]
          simpa using ih

/-- From the first `get_client` call that returns an instance onward, every
later call returns that same instance and performs no constructor call. -/
theorem gcRun_after_ok : ∀ (opsl : List ClientOps) (i j c : ℕ)
    (tr : List Call) (e : Except String ℕ × List Call), i < j →
    (gcRun opsl none)[i]? = some (Except.ok c, tr) →
    (gcRun opsl none)[j]? = some e → e = (Except.ok c, [])
  | [], i, _, _, _, _, _, h1, _ => by simp [gcRun] at h1
  | o :: os, i, j, c, tr, e, hij, h1, h2 => by
      cases hco : o.construct with
      | ok c0 =>
          rw [show gcRun (o :: os) none =
              (Except.ok c0, [Call.construct]) :: gcRun os (some c0) from by
            simp [gcRun, get_client, hco]] at h1 h2
          cases i with
          | zero =>
              simp only [List.getElem?_cons_zero, Option.some.injEq,
                Prod.mk.injEq, Except.ok.injEq] at h1
              obtain ⟨j', rfl⟩ : ∃ j', j = j' + 1 := ⟨j - 1, by omega⟩
              simp only [List.getElem?_cons_succ] at h2
              obtain ⟨rfl, -⟩ := h1
              exact mem_gcRun_some os c0 e (mem_of_lookup _ j' e h2)
          | succ i' =>
              obtain ⟨j', rfl⟩ : ∃ j', j = j' + 1 := ⟨j - 1, by omega⟩
              simp only [List.getElem?_cons_succ] at h1 h2
              have he1 := mem_gcRun_some os c0 (Except.ok c, tr)
                (mem_of_lookup _ i' _ h1)
              have he2 := mem_gcRun_some os c0 e (mem_of_lookup _ j' e h2)
              simp only [Prod.mk.injEq, Except.ok.injEq] at he1
              rw [he2, he1.1]
      | error m =>
          rw [show gcRun (o :: os) none =
              (Except.error m, [Call.construct]) :: gcRun os none from by
            simp [gcRun, get_client, hco]] at h1 h2
          cases i with
          | zero =>
              simp only [List.getElem?_cons_zero, Option.some.injEq,
                Prod.mk.injEq] at h1
              exact absurd h1.1 (by simp)
          | succ i' =>
              obtain ⟨j', rfl⟩ : ∃ j', j = j' + 1 := ⟨j - 1, by omega⟩
              simp only [List.getElem?_cons_succ] at h1 h2
              exact gcRun_after_ok os i' j' c tr e (by omega) h1 h2

/-- C7: in any sequential run of `get_client()` calls starting from the
unset module-global handle, the client is successfully constructed at most
once, and from the first call that returns an instance onward every later
call returns that same stored instance while invoking the constructor not
at all. -/
theorem client_constructed_at_most_once (opsl : List ClientOps) :
    (gcRun opsl none).countP successfulConstruction ≤ 1 ∧
    (∀ (i j c : ℕ) (tr : List Call) (e : Except String ℕ × List Call),
      i < j →
      (gcRun opsl none)[i]? = some (Except.ok c, tr) →
      (gcRun opsl none)[j]? = some e → e = (Except.ok c, [])) :=
  ⟨countP_gcRun_none opsl, fun i j c tr e hij h1 h2 =>
    gcRun_after_ok opsl i j c tr e hij h1 h2⟩

/-- Witness for C7 at a concrete three-call run (failed construction, then
successful construction, then reuse): the call after the first success
returns the same instance with no constructor invocation. -/
theorem client_constructed_at_most_once_w :
    (gcRun [opsFailCtor, opsDemo, opsFailCtor] none)[1]? =
      some (Except.ok 7, [Call.construct]) ∧
    (gcRun [opsFailCtor, opsDemo, opsFailCtor] none)[2]? =
      some (Except.ok 7, []) ∧
    ((Except.ok 7, ([] : List Call)) : Except String ℕ × List Call) =
      (Except.ok 7, []) :=
  ⟨rfl, rfl,
    (client_constructed_at_most_once [opsFailCtor, opsDemo, opsFailCtor]).2
      1 2 7 [Call.construct] (Except.ok 7, []) (by omega) rfl rfl⟩

end ClobBridge
